import Mathlib

/-!
# Verification of the react-recaptcha-v2 script loader and widget bridge

A shallow embedding of the asynchronous orchestration core of the
`react-recaptcha-v2` library:

* `src/utils.ts` — the process-wide script-loader singleton
  (`loadReCaptchaScript`, `onReCaptchaLoad`, the module-level state
  `scriptLoadingState` / `scriptLoadPromise` / `callbacks`, and the
  `unhandledrejection` suppressor `attachUnhandledRejectionHandler`);
* `src/useReCaptcha.tsx` — the per-widget bridge (`renderReCaptcha`,
  `executeAsync`, the verify / expired / error widget callbacks, the
  execute timeout, and the unmount cleanup).

The JavaScript runs single-threaded on an event loop.  We model each
externally delivered event (a script `onload` / `onerror`, the library's
`ready` callback, a timer firing, a widget callback, a hook call) as a
pure state-transition function translated line by line from the source.
Promises are modelled by identifiers (`Nat`); settling a promise appends
an entry to a settlement log, so "settled twice" is directly observable
as two log entries with the same identifier.
-/

set_option autoImplicit false

namespace ReCaptcha

/-- Character-list analogue of `String.startsWith` used to build the
substring test below. -/
def listLeads : List Char → List Char → Bool
  | _, [] => true
  | [], _ :: _ => false
  | a :: as, b :: bs => a == b && listLeads as bs

/-- Character-list substring test. -/
def listHasSub : List Char → List Char → Bool
  | [], needle => needle.isEmpty
  | a :: as, needle => listLeads (a :: as) needle || listHasSub as needle

/-- Model of JavaScript `String.prototype.includes`. -/
def strIncludes (hay needle : String) : Bool :=
  listHasSub hay.toList needle.toList

/-- ASCII lowering of one character, as `String.prototype.toLowerCase`
acts on the ASCII strings involved here. -/
def charLower (c : Char) : Char :=
  if c.toNat ≥ 65 && c.toNat ≤ 90 then Char.ofNat (c.toNat + 32) else c

/-- Model of JavaScript `String.prototype.toLowerCase` (ASCII range). -/
def strToLower (s : String) : String :=
  ⟨s.toList.map charLower⟩

/-! ## The `unhandledrejection` suppressor (`src/utils.ts`, lines 46–80)

The handler inspects `event.reason`.  A rejection reason is either an
`Error` object (with a `message` and an optional string `stack`), a raw
string, or anything else. -/

/-- Shape of an `unhandledrejection` reason as the handler distinguishes
them: `reason instanceof Error`, `typeof reason === "string"`, or other. -/
inductive RejectionReason where
  | err (message : String) (stack : Option String)
  | str (value : String)
  | other
deriving DecidableEq

/-- Translation of the body of the `unhandledrejection` listener in
`attachUnhandledRejectionHandler` (`src/utils.ts` lines 50–77):
`true` means the event is suppressed (`preventDefault` +
`stopImmediatePropagation`), `false` means it stays visible. -/
def suppressesRejection : RejectionReason → Bool
  | .err message stack =>
      let isTimeoutMsg := strIncludes (strToLower message) "timeout"
      let st := strToLower (stack.getD "")
      let isFromRecaptcha :=
        strIncludes st "recaptcha" || strIncludes st "gstatic" ||
          strIncludes st "google.com/recaptcha"
      isTimeoutMsg && isFromRecaptcha
  | .str value => strIncludes (strToLower value) "timeout"
  | .other => false

/-- Spec-side predicate: "its text (a timeout message)". -/
def hasTimeoutText : RejectionReason → Bool
  | .err message _ => strIncludes (strToLower message) "timeout"
  | .str value => strIncludes (strToLower value) "timeout"
  | .other => false

/-- Spec-side predicate: "its origin (the third-party reCAPTCHA script)",
read off the only origin evidence a rejection carries — the stack of an
`Error` reason.  A raw-string reason carries no stack, so no origin can be
established for it. -/
def hasRecaptchaOrigin : RejectionReason → Bool
  | .err _ stack =>
      let st := strToLower (stack.getD "")
      strIncludes st "recaptcha" || strIncludes st "gstatic" ||
        strIncludes st "google.com/recaptcha"
  | .str _ => false
  | .other => false

/-! ## The script loader (`src/utils.ts`)

Module-level mutable state of `utils.ts`:

```ts
let scriptLoadingState: ScriptLoadingState = "unloaded";
let scriptLoadPromise: Promise<void> | null = null;
let callbacks: Array<() => void> = [];
```

plus the ambient `window.grecaptcha` global.  Promises and callbacks are
identified by `Nat`s; the loader also records how many script elements it
has appended to `document.head`, which promises have been resolved or
rejected, and which queued callbacks have been invoked (in order). -/

/-- `type ScriptLoadingState = "unloaded" | "loading" | "loaded" | "error"`. -/
inductive ScriptLoadingState where
  | unloaded
  | loading
  | loaded
  | error
deriving DecidableEq

/-- The loader singleton's state together with its observable effect log. -/
structure LoaderState where
  /-- `scriptLoadingState`. -/
  scriptLoadingState : ScriptLoadingState
  /-- `scriptLoadPromise` (by promise id). -/
  scriptLoadPromise : Option Nat
  /-- `callbacks`, the queue drained on the library's ready signal. -/
  callbacks : List Nat
  /-- Whether `window.grecaptcha` is present (`isReCaptchaAvailable`). -/
  grecaptcha : Bool
  /-- The `src` URLs of the `<script>` elements appended to
  `document.head`, in injection order. -/
  scriptSrcs : List String
  /-- Fresh-promise counter. -/
  nextPromiseId : Nat
  /-- The 15-second ready-guard timer, holding the promise its callback
  closed over, when armed. -/
  readyGuard : Option Nat
  /-- The `grecaptcha.ready` registration, holding the promise its
  callback closed over, when outstanding. -/
  readyWait : Option Nat
  /-- Promises resolved so far, in order. -/
  resolvedP : List Nat
  /-- Promises rejected so far, with the rejection message. -/
  rejectedP : List (Nat × String)
  /-- Queued/immediate `onReCaptchaLoad` callbacks invoked so far, in
  invocation order. -/
  invoked : List Nat
deriving DecidableEq

/-- The module-scope initial values of `utils.ts` in a browser without
the reCAPTCHA script. -/
def initialLoader : LoaderState where
  scriptLoadingState := .unloaded
  scriptLoadPromise := none
  callbacks := []
  grecaptcha := false
  scriptSrcs := []
  nextPromiseId := 0
  readyGuard := none
  readyWait := none
  resolvedP := []
  rejectedP := []
  invoked := []

/-- `isReCaptchaAvailable` (`src/utils.ts` lines 34–37). -/
def isReCaptchaAvailable (s : LoaderState) : Bool :=
  s.grecaptcha

/-- The script URL built by `loadReCaptchaScript`
(`src/utils.ts` lines 8, 122–128). -/
def scriptUrl : Option String → String
  | none => "https://www.google.com/recaptcha/api.js"
  | some language => "https://www.google.com/recaptcha/api.js" ++ "?hl=" ++ language

/-- The synchronous part of `loadReCaptchaScript` (`src/utils.ts` lines
97–200), returning the new loader state and the id of the promise handed
back to the caller.  The browser branch is modelled (`window` present).
The three cases:

* already loaded and `grecaptcha` present → a fresh already-resolved
  promise (`Promise.resolve()`);
* a load in flight → the existing shared promise, with no further effect;
* otherwise → transition to `loading`, create a fresh promise, build the
  URL and append a new script element.  The `onload` / `onerror` /
  `ready` continuations are separate events below. -/
def loadReCaptchaScript (s : LoaderState) (language : Option String) :
    LoaderState × Nat :=
  if isReCaptchaAvailable s && s.scriptLoadingState == .loaded then
    let p := s.nextPromiseId
    ({ s with nextPromiseId := p + 1, resolvedP := s.resolvedP ++ [p] }, p)
  else
    match s.scriptLoadPromise with
    | some p =>
        if s.scriptLoadingState == .loading then
          (s, p)
        else
          let q := s.nextPromiseId
          ({ s with scriptLoadingState := .loading,
                    scriptLoadPromise := some q,
                    nextPromiseId := q + 1,
                    scriptSrcs := s.scriptSrcs ++ [scriptUrl language] }, q)
    | none =>
        let q := s.nextPromiseId
        ({ s with scriptLoadingState := .loading,
                  scriptLoadPromise := some q,
                  nextPromiseId := q + 1,
                  scriptSrcs := s.scriptSrcs ++ [scriptUrl language] }, q)

/-- The `script.onload` handler (`src/utils.ts` lines 131–184), fired for
the in-flight script; `g` is whether the script's execution made
`window.grecaptcha` available.  If `grecaptcha` is missing the promise is
rejected and the state becomes `error`; otherwise the state becomes
`loaded`, the 15-second ready guard is armed and the `grecaptcha.ready`
callback is registered (the `checkGrecaptcha` poll loop exits on its
first iteration because `grecaptcha` was just confirmed present). -/
def scriptOnload (s : LoaderState) (g : Bool) : LoaderState :=
  if s.scriptLoadingState == .loading then
    match s.scriptLoadPromise with
    | some p =>
        if !g then
          { s with grecaptcha := false,
                   scriptLoadingState := .error,
                   rejectedP := s.rejectedP ++
                     [(p, "reCAPTCHA script loaded, but grecaptcha object is not available.")] }
        else
          { s with grecaptcha := true,
                   scriptLoadingState := .loaded,
                   readyGuard := some p,
                   readyWait := some p }
    | none => s
  else s

/-- The `grecaptcha.ready` callback (`src/utils.ts` lines 160–169):
clears the guard timer, invokes every queued callback in order, empties
the queue, and resolves the load promise. -/
def readySignal (s : LoaderState) : LoaderState :=
  match s.readyWait with
  | some p =>
      { s with readyGuard := none,
               invoked := s.invoked ++ s.callbacks,
               callbacks := [],
               resolvedP := s.resolvedP ++ [p],
               readyWait := none }
  | none => s

/-- The 15-second ready-guard timer firing (`src/utils.ts` lines
151–158): the state becomes `error` and the promise is rejected. -/
def readyGuardFires (s : LoaderState) : LoaderState :=
  match s.readyGuard with
  | some p =>
      { s with scriptLoadingState := .error,
               readyGuard := none,
               rejectedP := s.rejectedP ++
                 [(p, "reCAPTCHA ready callback timed out after 15 seconds.")] }
  | none => s

/-- The `script.onerror` handler (`src/utils.ts` lines 186–189). -/
def scriptOnerror (s : LoaderState) : LoaderState :=
  if s.scriptLoadingState == .loading then
    match s.scriptLoadPromise with
    | some p =>
        { s with scriptLoadingState := .error,
                 rejectedP := s.rejectedP ++
                   [(p, "Failed to load reCAPTCHA script from Google.")] }
    | none => s
  else s

/-- `onReCaptchaLoad` (`src/utils.ts` lines 206–216): invoke immediately
when `grecaptcha` is available and the state is `loaded`, otherwise
enqueue. -/
def onReCaptchaLoad (s : LoaderState) (cb : Nat) : LoaderState :=
  if isReCaptchaAvailable s && s.scriptLoadingState == .loaded then
    { s with invoked := s.invoked ++ [cb] }
  else
    { s with callbacks := s.callbacks ++ [cb] }

/-- Events delivered to the loader by the event loop. -/
inductive LoaderEvent where
  | load (language : Option String)
  | onReady (cb : Nat)
  | onload (grecaptchaPresent : Bool)
  | onerror
  | ready
  | guardTimeout
deriving DecidableEq

/-- One event-loop step of the loader. -/
def stepLoader (s : LoaderState) : LoaderEvent → LoaderState
  | .load language => (loadReCaptchaScript s language).1
  | .onReady cb => onReCaptchaLoad s cb
  | .onload g => scriptOnload s g
  | .onerror => scriptOnerror s
  | .ready => readySignal s
  | .guardTimeout => readyGuardFires s

/-- Run a sequence of loader events. -/
def runLoader (s : LoaderState) : List LoaderEvent → LoaderState
  | [] => s
  | e :: es => runLoader (stepLoader s e) es

/-- `n` successive `loadReCaptchaScript` calls, collecting the returned
promises in call order. -/
def loadN (s : LoaderState) (language : Option String) : Nat → LoaderState × List Nat
  | 0 => (s, [])
  | n + 1 =>
      let r := loadReCaptchaScript s language
      let rest := loadN r.1 language n
      (rest.1, r.2 :: rest.2)

/-! ## The widget bridge (`src/useReCaptcha.tsx`)

Per-hook-instance mutable state: `widgetIdRef`, `pendingPromiseRef`,
`executeTimeoutRef`, the `error` React state, plus the consumer-callback
refs.  The `executeAsync` promise is identified by a `Nat`; settling it
(calling its `resolve` or `reject`) appends a `Settle` entry to a log.
Calls into the third-party `grecaptcha` library are logged as
`LibCall`s. -/

/-- A settlement of an `executeAsync` promise: `resolve(token)` or
`reject(reason)`. -/
inductive Settle where
  | resolved (p : Nat) (token : String)
  | rejected (p : Nat) (reason : String)
deriving DecidableEq

/-- The promise a settlement belongs to. -/
def Settle.promiseId : Settle → Nat
  | .resolved p _ => p
  | .rejected p _ => p

/-- Calls issued to the `grecaptcha` library object. -/
inductive LibCall where
  | reset (handle : Nat)
  | render
  | execute (handle : Nat)
deriving DecidableEq

/-- State of one `useReCaptcha` bridge instance plus its effect logs. -/
structure BridgeState where
  /-- `widgetIdRef.current` (the opaque widget handle). -/
  widgetId : Option Nat
  /-- `pendingPromiseRef.current`, by the id of the promise whose
  `resolve`/`reject` pair it holds. -/
  pending : Option Nat
  /-- `executeTimeoutRef.current !== null`: the 120 000 ms execute
  timeout timer is armed. -/
  executeTimeout : Bool
  /-- Fresh-promise counter for `executeAsync`. -/
  nextPromiseId : Nat
  /-- Settlements performed so far, in order. -/
  settled : List Settle
  /-- Whether `window.grecaptcha` is available (`getGrecaptcha`). -/
  grecaptcha : Bool
  /-- Whether `containerRef.current` is non-null. -/
  containerPresent : Bool
  /-- The handle the library will return from its next `render` call
  (the library hands out fresh handles). -/
  libNextHandle : Nat
  /-- Calls made to the library, in order. -/
  libCalls : List LibCall
  /-- Tokens passed to the consumer's `onVerify`, in order. -/
  onVerifyLog : List String
  /-- Number of consumer `onExpired` invocations. -/
  onExpiredCount : Nat
  /-- Messages passed to the consumer's `onError`, in order. -/
  onErrorLog : List String
  /-- The `error` React state. -/
  error : Option String
  /-- The `isReady` React state. -/
  isReady : Bool
  /-- Number of consumer `onLoad` invocations. -/
  onLoadCount : Nat
deriving DecidableEq

/-- `clearExecuteTimeout` (`src/useReCaptcha.tsx` lines 154–159). -/
def clearExecuteTimeout (s : BridgeState) : BridgeState :=
  { s with executeTimeout := false }

/-- The widget `callback` registered at render time
(`src/useReCaptcha.tsx` lines 212–221): invoke the consumer's
`onVerify`, then resolve and clear the pending slot if present, then
clear the execute timeout. -/
def verifyCallback (s : BridgeState) (token : String) : BridgeState :=
  let s := { s with onVerifyLog := s.onVerifyLog ++ [token] }
  let s :=
    match s.pending with
    | some p => { s with settled := s.settled ++ [.resolved p token], pending := none }
    | none => s
  clearExecuteTimeout s

/-- The widget `expired-callback` (`src/useReCaptcha.tsx` lines
222–231). -/
def expiredCallback (s : BridgeState) : BridgeState :=
  let s := { s with onExpiredCount := s.onExpiredCount + 1 }
  let s :=
    match s.pending with
    | some p => { s with settled := s.settled ++ [.rejected p "expired"], pending := none }
    | none => s
  clearExecuteTimeout s

/-- The widget `error-callback` (`src/useReCaptcha.tsx` lines
232–241). -/
def errorCallback (s : BridgeState) (errorMsg : String) : BridgeState :=
  let s := { s with onErrorLog := s.onErrorLog ++ [errorMsg] }
  let s :=
    match s.pending with
    | some p => { s with settled := s.settled ++ [.rejected p errorMsg], pending := none }
    | none => s
  clearExecuteTimeout s

/-- The 120 000 ms execute-timeout timer firing (`src/useReCaptcha.tsx`
lines 352–358): reject the pending promise with `'timeout'` and clear
the slot, then clear the (already fired) timer reference.  Guarded on
the timer actually being armed. -/
def executeTimeoutFires (s : BridgeState) : BridgeState :=
  if s.executeTimeout then
    let s :=
      match s.pending with
      | some p => { s with settled := s.settled ++ [.rejected p "timeout"], pending := none }
      | none => s
    clearExecuteTimeout s
  else s

/-- `renderReCaptcha` (`src/useReCaptcha.tsx` lines 195–251).
`renderThrows` models `grecaptcha.render` throwing.  If a prior handle
exists it is reset first; then `render` is called and, on success, the
fresh handle returned by the library replaces the old one, `isReady` is
set and `onLoad` fires; on an exception the error state is set and the
consumer's `onError` is invoked with the thrown message. -/
def renderReCaptcha (s : BridgeState) (renderThrows : Bool) (throwMsg : String) :
    BridgeState :=
  if !s.grecaptcha || !s.containerPresent then s
  else
    let s :=
      match s.widgetId with
      | some w => { s with libCalls := s.libCalls ++ [LibCall.reset w] }
      | none => s
    if renderThrows then
      { s with libCalls := s.libCalls ++ [LibCall.render],
               error := some throwMsg,
               onErrorLog := s.onErrorLog ++ [throwMsg] }
    else
      let h := s.libNextHandle
      { s with libCalls := s.libCalls ++ [LibCall.render],
               widgetId := some h,
               libNextHandle := h + 1,
               isReady := true,
               onLoadCount := s.onLoadCount + 1 }

/-- `executeAsync` (`src/useReCaptcha.tsx` lines 337–371), returning the
new state and the id of the promise handed to the caller.  `execThrows`
models `grecaptcha.execute` throwing synchronously.  Not-ready fast
path: reject with `'reCAPTCHA not ready'` and clear the timeout.
Otherwise the fresh promise's `resolve`/`reject` pair overwrites
`pendingPromiseRef.current`, the timeout is cleared and re-armed, and
the library's `execute` is called; a synchronous throw clears the slot,
sets the error state, invokes `onError`, rejects the promise with the
thrown message and clears the timeout. -/
def executeAsync (s : BridgeState) (execThrows : Bool) (throwMsg : String) :
    BridgeState × Nat :=
  let p := s.nextPromiseId
  let s := { s with nextPromiseId := p + 1 }
  match s.widgetId with
  | none =>
      (clearExecuteTimeout { s with settled := s.settled ++ [.rejected p "reCAPTCHA not ready"] }, p)
  | some w =>
      if !s.grecaptcha then
        (clearExecuteTimeout { s with settled := s.settled ++ [.rejected p "reCAPTCHA not ready"] }, p)
      else
        let s := { s with pending := some p }
        let s := clearExecuteTimeout s
        let s := { s with executeTimeout := true }
        if execThrows then
          let s := { s with pending := none,
                            error := some throwMsg,
                            onErrorLog := s.onErrorLog ++ [throwMsg],
                            settled := s.settled ++ [.rejected p throwMsg] }
          (clearExecuteTimeout s, p)
        else
          ({ s with libCalls := s.libCalls ++ [LibCall.execute w] }, p)

/-- The unmount cleanup of the main effect (`src/useReCaptcha.tsx` lines
285–305): clear the container's injected DOM, reject a pending
`executeAsync` promise with `'ReCaptcha component unmounted'` and clear
the slot, cancel the execute timeout, and finally ask the library to
reset the widget when both a handle and the library are present. -/
def disposeBridge (s : BridgeState) : BridgeState :=
  let s :=
    match s.pending with
    | some p =>
        { s with settled := s.settled ++ [.rejected p "ReCaptcha component unmounted"],
                 pending := none }
    | none => s
  let s := clearExecuteTimeout s
  match s.widgetId with
  | some w => if s.grecaptcha then { s with libCalls := s.libCalls ++ [LibCall.reset w] } else s
  | none => s

/-- Events delivered to one bridge instance by the event loop. -/
inductive BridgeEvent where
  | verify (token : String)
  | expired
  | errorEvt (msg : String)
  | timeoutFire
  | dispose
  | executeAsyncCall (execThrows : Bool) (throwMsg : String)
  | renderCall (renderThrows : Bool) (throwMsg : String)
deriving DecidableEq

/-- The five competing settlement events of the `PendingExecution` slot
(everything but a new `executeAsync`/render call). -/
def BridgeEvent.isSettlementEvent : BridgeEvent → Bool
  | .executeAsyncCall _ _ => false
  | .renderCall _ _ => false
  | _ => true

/-- One event-loop step of a bridge instance. -/
def stepBridge (s : BridgeState) : BridgeEvent → BridgeState
  | .verify token => verifyCallback s token
  | .expired => expiredCallback s
  | .errorEvt msg => errorCallback s msg
  | .timeoutFire => executeTimeoutFires s
  | .dispose => disposeBridge s
  | .executeAsyncCall t m => (executeAsync s t m).1
  | .renderCall t m => renderReCaptcha s t m

/-- Run a sequence of bridge events. -/
def runBridge (s : BridgeState) : List BridgeEvent → BridgeState
  | [] => s
  | e :: es => runBridge (stepBridge s e) es

/-- Number of settlements of promise `p` in a settlement log. -/
def settleCount (p : Nat) (l : List Settle) : Nat :=
  (l.filter (fun x => x.promiseId == p)).length

/-- A freshly mounted hook instance (`widgetIdRef`, `pendingPromiseRef`
and `executeTimeoutRef` start as `null`), in a browser where
`window.grecaptcha` is available and the container div is attached. -/
def initialBridge : BridgeState where
  widgetId := none
  pending := none
  executeTimeout := false
  nextPromiseId := 0
  settled := []
  grecaptcha := true
  containerPresent := true
  libNextHandle := 0
  libCalls := []
  onVerifyLog := []
  onExpiredCount := 0
  onErrorLog := []
  error := none
  isReady := false
  onLoadCount := 0

/-! ## Theorems -/

lemma settleCount_append (p : Nat) (l : List Settle) (x : Settle) :
    settleCount p (l ++ [x]) =
      settleCount p l + (if x.promiseId == p then 1 else 0) := by
  simp only [settleCount, List.filter_append, List.length_append]
  congr 1
  by_cases h : x.promiseId == p <;> simp [List.filter, h]

/-- C1. While a load is already in flight (`scriptLoadingState =
"loading"` with a shared promise present), any number `n` of further
`loadReCaptchaScript` calls leaves the loader state — in particular the
list of injected script elements — completely unchanged, and every one
of the `n` calls returns the same shared in-flight promise `p`, so all
the returned futures are one future and settle together when that single
load attempt completes. -/
theorem loading_join_no_reinjection (s : LoaderState) (lang : Option String)
    (p : Nat) (hload : s.scriptLoadingState = .loading)
    (hp : s.scriptLoadPromise = some p) (n : Nat) :
    (loadN s lang n).1 = s ∧ (loadN s lang n).2 = List.replicate n p := by
  have hcall : loadReCaptchaScript s lang = (s, p) := by
    simp [loadReCaptchaScript, isReCaptchaAvailable, hload, hp]
  induction n with
  | zero => simp [loadN]
  | succ k ih =>
      simp only [loadN, hcall]
      exact ⟨ih.1, by simp [ih.1, ih.2, List.replicate]⟩

theorem loading_join_no_reinjection_witness :
    ((loadReCaptchaScript initialLoader none).1.scriptLoadingState = .loading) ∧
    (loadN (loadReCaptchaScript initialLoader none).1 none 3).1 =
      (loadReCaptchaScript initialLoader none).1 ∧
    (loadN (loadReCaptchaScript initialLoader none).1 none 3).2 = [0, 0, 0] := by
  refine ⟨by decide, ?_⟩
  have h := loading_join_no_reinjection (loadReCaptchaScript initialLoader none).1
    none 0 (by decide) (by decide) 3
  exact ⟨h.1, by simpa using h.2⟩

/-- C10. After a failed load attempt (`scriptLoadingState =
"error"`), a further `loadReCaptchaScript` call matches neither the
already-loaded fast path nor the in-flight fast path: the loader
transitions back to `loading`, injects a fresh script element (one more
`src` appended), and hands back a fresh promise distinct from the failed
one — a failed load may be retried. -/
theorem failed_load_retries_with_fresh_script (s : LoaderState)
    (lang : Option String) (p : Nat) (herr : s.scriptLoadingState = .error)
    (hp : s.scriptLoadPromise = some p) (hfresh : p < s.nextPromiseId) :
    (loadReCaptchaScript s lang).1.scriptLoadingState = .loading ∧
    (loadReCaptchaScript s lang).1.scriptSrcs = s.scriptSrcs ++ [scriptUrl lang] ∧
    (loadReCaptchaScript s lang).1.scriptLoadPromise =
      some (loadReCaptchaScript s lang).2 ∧
    (loadReCaptchaScript s lang).2 ≠ p := by
  simp [loadReCaptchaScript, isReCaptchaAvailable, herr, hp]
  omega

theorem failed_load_retries_with_fresh_script_witness :
    (loadReCaptchaScript (runLoader initialLoader
        [LoaderEvent.load none, LoaderEvent.onerror]) none).2 ≠ 0 ∧
    (loadReCaptchaScript (runLoader initialLoader
        [LoaderEvent.load none, LoaderEvent.onerror]) none).1.scriptLoadingState =
      .loading := by
  have h := failed_load_retries_with_fresh_script
    (runLoader initialLoader [LoaderEvent.load none, LoaderEvent.onerror])
    none 0 (by decide) (by decide) (by decide)
  exact ⟨h.2.2.2, h.1⟩

/-- C4 counterexample. In the trace "load is requested, a callback
is registered while loading, the script's `onload` fires with
`grecaptcha` present", the loader's phase is already `loaded` even
though the library's ready signal has not yet fired: no queued callback
has been invoked, the queue still holds the registered callback, and the
shared load future is still unresolved.  This refutes the claim that the
phase transitions to `Loaded` only once the library has signalled ready
and that the `readyQueue` is invoked at that same transition. -/
theorem loaded_before_ready_counterexample :
    (runLoader initialLoader
        [LoaderEvent.load none, LoaderEvent.onReady 7,
          LoaderEvent.onload true]).scriptLoadingState = .loaded ∧
    (runLoader initialLoader
        [LoaderEvent.load none, LoaderEvent.onReady 7,
          LoaderEvent.onload true]).invoked = [] ∧
    (runLoader initialLoader
        [LoaderEvent.load none, LoaderEvent.onReady 7,
          LoaderEvent.onload true]).callbacks = [7] ∧
    (runLoader initialLoader
        [LoaderEvent.load none, LoaderEvent.onReady 7,
          LoaderEvent.onload true]).resolvedP = [] := by
  decide

/-- C4 amended. The phase already transitions to `loaded` at the
script's `onload` (when the library object is observed present), before
the ready signal.  When the library's ready signal then fires, the
entire `readyQueue` is invoked exactly once in FIFO registration order
and cleared, and the shared load future resolves; a second ready signal
is a no-op.  A callback registered while the phase is `loaded` and the
library object is present is invoked immediately instead of being
enqueued. -/
theorem ready_signal_drains_queue_fifo (s : LoaderState) (p : Nat)
    (hw : s.readyWait = some p) :
    (readySignal s).invoked = s.invoked ++ s.callbacks ∧
    (readySignal s).callbacks = [] ∧
    (readySignal s).resolvedP = s.resolvedP ++ [p] ∧
    readySignal (readySignal s) = readySignal s ∧
    (∀ (t : LoaderState) (cb : Nat), t.grecaptcha = true →
      t.scriptLoadingState = .loaded →
      (onReCaptchaLoad t cb).invoked = t.invoked ++ [cb] ∧
      (onReCaptchaLoad t cb).callbacks = t.callbacks) ∧
    (∀ (t : LoaderState) (q : Nat), t.scriptLoadingState = .loading →
      t.scriptLoadPromise = some q →
      (scriptOnload t true).scriptLoadingState = .loaded ∧
      (scriptOnload t true).readyWait = some q ∧
      (scriptOnload t true).resolvedP = t.resolvedP) := by
  refine ⟨by simp [readySignal, hw], by simp [readySignal, hw],
    by simp [readySignal, hw], by simp [readySignal, hw], ?_, ?_⟩
  · intro t cb hg hl
    constructor <;> simp [onReCaptchaLoad, isReCaptchaAvailable, hg, hl]
  · intro t q hl hq
    refine ⟨?_, ?_, ?_⟩ <;> simp [scriptOnload, hl, hq]

theorem ready_signal_drains_queue_fifo_witness :
    (readySignal (runLoader initialLoader
        [LoaderEvent.load none, LoaderEvent.onReady 3, LoaderEvent.onReady 4,
          LoaderEvent.onload true])).invoked = [3, 4] ∧
    (readySignal (runLoader initialLoader
        [LoaderEvent.load none, LoaderEvent.onReady 3, LoaderEvent.onReady 4,
          LoaderEvent.onload true])).callbacks = [] ∧
    (readySignal (runLoader initialLoader
        [LoaderEvent.load none, LoaderEvent.onReady 3, LoaderEvent.onReady 4,
          LoaderEvent.onload true])).resolvedP = [0] := by
  have h := ready_signal_drains_queue_fifo
    (runLoader initialLoader
      [LoaderEvent.load none, LoaderEvent.onReady 3, LoaderEvent.onReady 4,
        LoaderEvent.onload true]) 0 (by decide)
  refine ⟨?_, h.2.1, ?_⟩
  · rw [h.1]; decide
  · rw [h.2.2.1]; decide

/-- C5 counterexample. A reachable loader state in which the phase
is `loaded` while the `readyQueue` is non-empty: request the load,
register a callback while loading, then let the script's `onload` fire
with `grecaptcha` present.  The phase is now `loaded` but the queue
still holds the callback (it is only drained when the library's ready
signal fires later). -/
theorem loaded_with_nonempty_queue_reachable :
    (runLoader initialLoader
        [LoaderEvent.load none, LoaderEvent.onReady 5,
          LoaderEvent.onload true]).scriptLoadingState = .loaded ∧
    (runLoader initialLoader
        [LoaderEvent.load none, LoaderEvent.onReady 5,
          LoaderEvent.onload true]).callbacks ≠ [] := by
  decide

lemma stepLoader_queue_inv (s : LoaderState) (e : LoaderEvent)
    (h1 : s.scriptLoadingState = .loaded → s.grecaptcha = true)
    (h2 : s.scriptLoadingState = .loaded → s.readyWait ≠ none ∨ s.callbacks = []) :
    ((stepLoader s e).scriptLoadingState = .loaded →
      (stepLoader s e).grecaptcha = true) ∧
    ((stepLoader s e).scriptLoadingState = .loaded →
      (stepLoader s e).readyWait ≠ none ∨ (stepLoader s e).callbacks = []) := by
  cases e with
  | load lang =>
      simp only [stepLoader, loadReCaptchaScript, isReCaptchaAvailable]
      split
      · exact ⟨fun h => h1 h, fun h => h2 h⟩
      · cases hp : s.scriptLoadPromise with
        | some p =>
            simp only
            split
            · exact ⟨fun h => h1 h, fun h => h2 h⟩
            · simp
        | none => simp
  | onReady cb =>
      simp only [stepLoader, onReCaptchaLoad, isReCaptchaAvailable]
      split
      · rename_i hcond
        simp only [Bool.and_eq_true, beq_iff_eq] at hcond
        exact ⟨fun _ => hcond.1, fun h => h2 h⟩
      · rename_i hcond
        simp only [Bool.and_eq_true, beq_iff_eq, not_and] at hcond
        constructor
        · intro h
          exact h1 h
        · intro h
          have hs : s.scriptLoadingState = ScriptLoadingState.loaded := h
          exact absurd hs (hcond (h1 hs))
  | onload g =>
      simp only [stepLoader, scriptOnload]
      split
      · cases hp : s.scriptLoadPromise with
        | some p =>
            simp only
            split
            · simp
            · simp
        | none => exact ⟨h1, h2⟩
      · exact ⟨h1, h2⟩
  | onerror =>
      simp only [stepLoader, scriptOnerror]
      split
      · cases hp : s.scriptLoadPromise with
        | some p => simp
        | none => exact ⟨h1, h2⟩
      · exact ⟨h1, h2⟩
  | ready =>
      simp only [stepLoader, readySignal]
      cases hw : s.readyWait with
      | some p => exact ⟨fun h => h1 h, fun _ => Or.inr rfl⟩
      | none => exact ⟨h1, h2⟩
  | guardTimeout =>
      simp only [stepLoader, readyGuardFires]
      cases hg : s.readyGuard with
      | some p => simp
      | none => exact ⟨h1, h2⟩

lemma runLoader_queue_inv (es : List LoaderEvent) :
    ∀ s : LoaderState,
      (s.scriptLoadingState = .loaded → s.grecaptcha = true) →
      (s.scriptLoadingState = .loaded → s.readyWait ≠ none ∨ s.callbacks = []) →
      ((runLoader s es).scriptLoadingState = .loaded →
        (runLoader s es).grecaptcha = true) ∧
      ((runLoader s es).scriptLoadingState = .loaded →
        (runLoader s es).readyWait ≠ none ∨ (runLoader s es).callbacks = []) := by
  induction es with
  | nil => intro s h1 h2; exact ⟨h1, h2⟩
  | cons e es ih =>
      intro s h1 h2
      have h := stepLoader_queue_inv s e h1 h2
      exact ih (stepLoader s e) h.1 h.2

/-- C5 amended. In every loader state reachable from the module's
initial state, the `readyQueue` can be non-empty while the phase is
`loaded` only during the window in which the library's ready callback is
still outstanding: once the ready registration has been consumed (no
`grecaptcha.ready` callback outstanding), phase = `loaded` implies the
queue of waiting `onReCaptchaLoad` callbacks is empty. -/
theorem queue_empty_after_ready_invariant (es : List LoaderEvent)
    (hloaded : (runLoader initialLoader es).scriptLoadingState = .loaded)
    (hdone : (runLoader initialLoader es).readyWait = none) :
    (runLoader initialLoader es).callbacks = [] := by
  have h := runLoader_queue_inv es initialLoader (by intro h; cases h) (by intro h; cases h)
  rcases h.2 hloaded with hw | hc
  · exact absurd hdone hw
  · exact hc

theorem queue_empty_after_ready_invariant_witness :
    (runLoader initialLoader
        [LoaderEvent.load none, LoaderEvent.onReady 5, LoaderEvent.onload true,
          LoaderEvent.ready]).callbacks = [] :=
  queue_empty_after_ready_invariant
    [LoaderEvent.load none, LoaderEvent.onReady 5, LoaderEvent.onload true,
      LoaderEvent.ready] (by decide) (by decide)

/-- C7 counterexample. The process-level suppressor silences a
background rejection whose reason is the plain string
`"timeout waiting for database"` — a reason that mentions none of the
reCAPTCHA origin markers (`recaptcha`, `gstatic`,
`google.com/recaptcha`) anywhere and carries no stack, so it cannot be
identified as coming from the third-party reCAPTCHA script.  This
refutes the claim that a rejection is suppressed only when both its
text and its third-party origin match: the string branch of the handler
checks the text alone. -/
theorem string_timeout_suppressed_without_origin :
    suppressesRejection (RejectionReason.str "timeout waiting for database") = true ∧
    hasRecaptchaOrigin (RejectionReason.str "timeout waiting for database") = false ∧
    strIncludes "timeout waiting for database" "recaptcha" = false ∧
    strIncludes "timeout waiting for database" "gstatic" = false := by
  decide

/-- C7 amended. The suppressor silences a background rejection
precisely when its text is a timeout message and, additionally for
`Error`-shaped reasons, its stack identifies the third-party reCAPTCHA
script as the origin; a plain-string reason (which carries no stack, so
no origin can be checked) is suppressed on its timeout text alone, and
every other rejection is left visible to the host application. -/
theorem suppression_shape_rule (r : RejectionReason) :
    suppressesRejection r = true ↔
      (hasTimeoutText r = true ∧
        (hasRecaptchaOrigin r = true ∨ ∃ v, r = RejectionReason.str v)) := by
  cases r with
  | err message stack =>
      simp [suppressesRejection, hasTimeoutText, hasRecaptchaOrigin,
        Bool.and_eq_true]
  | str value =>
      simp [suppressesRejection, hasTimeoutText, hasRecaptchaOrigin]
  | other =>
      simp [suppressesRejection, hasTimeoutText]

lemma stepBridge_settle_budget (p : Nat) (s : BridgeState) (e : BridgeEvent)
    (he : e.isSettlementEvent = true) :
    settleCount p (stepBridge s e).settled +
      (if (stepBridge s e).pending = some p then 1 else 0) ≤
    settleCount p s.settled + (if s.pending = some p then 1 else 0) := by
  cases e with
  | verify token =>
      rcases hp : s.pending with _ | q
      · simp [stepBridge, verifyCallback, clearExecuteTimeout, hp]
      · simp only [stepBridge, verifyCallback, clearExecuteTimeout, hp,
          settleCount_append]
        by_cases hq : q = p <;> simp [hq, Settle.promiseId]
  | expired =>
      rcases hp : s.pending with _ | q
      · simp [stepBridge, expiredCallback, clearExecuteTimeout, hp]
      · simp only [stepBridge, expiredCallback, clearExecuteTimeout, hp,
          settleCount_append]
        by_cases hq : q = p <;> simp [hq, Settle.promiseId]
  | errorEvt msg =>
      rcases hp : s.pending with _ | q
      · simp [stepBridge, errorCallback, clearExecuteTimeout, hp]
      · simp only [stepBridge, errorCallback, clearExecuteTimeout, hp,
          settleCount_append]
        by_cases hq : q = p <;> simp [hq, Settle.promiseId]
  | timeoutFire =>
      by_cases ht : s.executeTimeout
      · rcases hp : s.pending with _ | q
        · simp [stepBridge, executeTimeoutFires, clearExecuteTimeout, hp, ht]
        · simp only [stepBridge, executeTimeoutFires, clearExecuteTimeout, hp,
            ht, if_true, settleCount_append]
          by_cases hq : q = p <;> simp [hq, Settle.promiseId]
      · simp [stepBridge, executeTimeoutFires, ht]
  | dispose =>
      rcases hp : s.pending with _ | q
      · rcases hw : s.widgetId with _ | w <;>
          by_cases hg : s.grecaptcha <;>
            simp [stepBridge, disposeBridge, clearExecuteTimeout, hp, hw, hg]
      · rcases hw : s.widgetId with _ | w <;>
          by_cases hg : s.grecaptcha <;>
            · simp only [stepBridge, disposeBridge, clearExecuteTimeout, hp, hw,
                hg, settleCount_append]
              by_cases hq : q = p <;>
                simp [hq, hg, Settle.promiseId, settleCount_append]
  | executeAsyncCall t m => simp [BridgeEvent.isSettlementEvent] at he
  | renderCall t m => simp [BridgeEvent.isSettlementEvent] at he

lemma runBridge_settle_budget (p : Nat) (es : List BridgeEvent) :
    ∀ s : BridgeState, (∀ e ∈ es, e.isSettlementEvent = true) →
      settleCount p (runBridge s es).settled +
        (if (runBridge s es).pending = some p then 1 else 0) ≤
      settleCount p s.settled + (if s.pending = some p then 1 else 0) := by
  induction es with
  | nil => intro s _; simp [runBridge]
  | cons e es ih =>
      intro s h
      have h1 := stepBridge_settle_budget p s e (h e (by simp))
      have h2 := ih (stepBridge s e) (fun x hx => h x (by simp [hx]))
      calc settleCount p (runBridge s (e :: es)).settled +
            (if (runBridge s (e :: es)).pending = some p then 1 else 0) ≤
          settleCount p (stepBridge s e).settled +
            (if (stepBridge s e).pending = some p then 1 else 0) := h2
        _ ≤ _ := h1

/-- C2. The `PendingExecution` slot is consumed at most once: if the
slot holds the `executeAsync` promise `p` and `p` has not been settled
yet, then over any sequence of competing settlement events (verify
callback, expire callback, error callback, timeout firing, disposal)
the promise `p` is settled at most once — it is never resolved or
rejected twice.  Moreover every settlement event that finds the slot
empty performs no settlement at all (the settlement log is left
untouched). -/
theorem pending_slot_consumed_at_most_once (s : BridgeState) (p : Nat)
    (hpend : s.pending = some p) (hnew : settleCount p s.settled = 0)
    (es : List BridgeEvent) (hset : ∀ e ∈ es, e.isSettlementEvent = true) :
    settleCount p (runBridge s es).settled ≤ 1 ∧
    (∀ (t : BridgeState) (e : BridgeEvent), t.pending = none →
      e.isSettlementEvent = true → (stepBridge t e).settled = t.settled) := by
  constructor
  · have h := runBridge_settle_budget p es s hset
    rw [hpend, hnew] at h
    have h2 : settleCount p (runBridge s es).settled ≤
        0 + (if (some p : Option Nat) = some p then 1 else 0) :=
      le_trans (Nat.le_add_right _ _) h
    simpa using h2
  · intro t e ht he
    cases e with
    | verify token => simp [stepBridge, verifyCallback, clearExecuteTimeout, ht]
    | expired => simp [stepBridge, expiredCallback, clearExecuteTimeout, ht]
    | errorEvt msg => simp [stepBridge, errorCallback, clearExecuteTimeout, ht]
    | timeoutFire =>
        by_cases h : t.executeTimeout <;>
          simp [stepBridge, executeTimeoutFires, clearExecuteTimeout, ht, h]
    | dispose =>
        cases hw : t.widgetId <;>
          by_cases hg : t.grecaptcha <;>
            simp [stepBridge, disposeBridge, clearExecuteTimeout, ht, hw, hg]
    | executeAsyncCall t' m => simp [BridgeEvent.isSettlementEvent] at he
    | renderCall t' m => simp [BridgeEvent.isSettlementEvent] at he

theorem pending_slot_consumed_at_most_once_witness :
    settleCount 0 (runBridge
        (runBridge initialBridge
          [BridgeEvent.renderCall false "", BridgeEvent.executeAsyncCall false ""])
        [BridgeEvent.verify "tok", BridgeEvent.timeoutFire, BridgeEvent.expired,
          BridgeEvent.dispose]).settled ≤ 1 :=
  (pending_slot_consumed_at_most_once
    (runBridge initialBridge
      [BridgeEvent.renderCall false "", BridgeEvent.executeAsyncCall false ""])
    0 (by decide) (by decide)
    [BridgeEvent.verify "tok", BridgeEvent.timeoutFire, BridgeEvent.expired,
      BridgeEvent.dispose] (by decide)).1

/-- C3. With a live widget handle, `executeAsync` arms the timeout
and parks the fresh promise in the pending slot; if the timeout fires
before any of the verify / expire / error callbacks, the promise is
rejected with the timeout reason (`'timeout'`) and the pending slot is
cleared, and a verify callback firing after that performs no settlement
at all — it cannot resolve the already settled future (the consumer's
`onVerify` still runs, but the settlement log is untouched). -/
theorem executeAsync_timeout_rejects_and_clears (s : BridgeState) (w : Nat)
    (hg : s.grecaptcha = true) (hw : s.widgetId = some w) (tok : String) :
    (executeAsync s false "").1.pending = some (executeAsync s false "").2 ∧
    (executeAsync s false "").1.executeTimeout = true ∧
    (executeTimeoutFires (executeAsync s false "").1).settled =
      (executeAsync s false "").1.settled ++
        [Settle.rejected (executeAsync s false "").2 "timeout"] ∧
    (executeTimeoutFires (executeAsync s false "").1).pending = none ∧
    (executeTimeoutFires (executeAsync s false "").1).executeTimeout = false ∧
    (verifyCallback (executeTimeoutFires (executeAsync s false "").1) tok).settled =
      (executeTimeoutFires (executeAsync s false "").1).settled := by
  simp [executeAsync, executeTimeoutFires, verifyCallback, clearExecuteTimeout,
    hg, hw]

theorem executeAsync_timeout_rejects_and_clears_witness :
    (executeTimeoutFires
        (executeAsync (runBridge initialBridge [BridgeEvent.renderCall false ""])
          false "").1).settled = [Settle.rejected 0 "timeout"] ∧
    (verifyCallback (executeTimeoutFires
        (executeAsync (runBridge initialBridge [BridgeEvent.renderCall false ""])
          false "").1) "tok").settled = [Settle.rejected 0 "timeout"] := by
  have h := executeAsync_timeout_rejects_and_clears
    (runBridge initialBridge [BridgeEvent.renderCall false ""]) 0
    (by decide) (by decide) "tok"
  constructor
  · rw [h.2.2.1]; decide
  · rw [h.2.2.2.2.2, h.2.2.1]; decide

/-- C6. Disposing (unmounting) a bridge instance while an
`executeAsync` pending execution is outstanding rejects that pending
future with the unmounted reason (`'ReCaptcha component unmounted'`),
clears the pending slot, and cancels the outstanding timeout timer —
no timer remains armed and the caller's future has settled.  When a
widget handle exists and the library is still available, the handle is
also reset. -/
theorem dispose_rejects_pending_unmounted (s : BridgeState) (p : Nat)
    (hpend : s.pending = some p) :
    (disposeBridge s).settled =
      s.settled ++ [Settle.rejected p "ReCaptcha component unmounted"] ∧
    (disposeBridge s).pending = none ∧
    (disposeBridge s).executeTimeout = false ∧
    (∀ w : Nat, s.widgetId = some w → s.grecaptcha = true →
      (disposeBridge s).libCalls = s.libCalls ++ [LibCall.reset w]) := by
  refine ⟨?_, ?_, ?_, ?_⟩
  · rcases hw : s.widgetId with _ | w <;>
      by_cases hg : s.grecaptcha <;>
        simp [disposeBridge, clearExecuteTimeout, hpend, hw, hg]
  · rcases hw : s.widgetId with _ | w <;>
      by_cases hg : s.grecaptcha <;>
        simp [disposeBridge, clearExecuteTimeout, hpend, hw, hg]
  · rcases hw : s.widgetId with _ | w <;>
      by_cases hg : s.grecaptcha <;>
        simp [disposeBridge, clearExecuteTimeout, hpend, hw, hg]
  · intro w hw hg
    simp [disposeBridge, clearExecuteTimeout, hpend, hw, hg]

theorem dispose_rejects_pending_unmounted_witness :
    (disposeBridge (runBridge initialBridge
        [BridgeEvent.renderCall false "",
          BridgeEvent.executeAsyncCall false ""])).settled =
      [Settle.rejected 0 "ReCaptcha component unmounted"] ∧
    (disposeBridge (runBridge initialBridge
        [BridgeEvent.renderCall false "",
          BridgeEvent.executeAsyncCall false ""])).executeTimeout = false := by
  have h := dispose_rejects_pending_unmounted
    (runBridge initialBridge
      [BridgeEvent.renderCall false "", BridgeEvent.executeAsyncCall false ""])
    0 (by decide)
  constructor
  · rw [h.1]; decide
  · exact h.2.2.1

/-- C8. When `renderReCaptcha` runs while a prior widget handle
exists (library present, container mounted, library call succeeding),
the prior handle is reset before the new `render` call is issued — the
two library calls are appended in exactly that order — and the fresh
handle returned by the library replaces the old one; since the library
hands out fresh handles, the new handle differs from the prior one, so
a handle is never reused across render calls. -/
theorem render_resets_prior_handle_first (s : BridgeState) (w : Nat)
    (hg : s.grecaptcha = true) (hc : s.containerPresent = true)
    (hw : s.widgetId = some w) (hfresh : w < s.libNextHandle) :
    (renderReCaptcha s false "").libCalls =
      s.libCalls ++ [LibCall.reset w, LibCall.render] ∧
    (renderReCaptcha s false "").widgetId = some s.libNextHandle ∧
    s.libNextHandle ≠ w := by
  refine ⟨?_, ?_, by omega⟩ <;> simp [renderReCaptcha, hg, hc, hw]

theorem render_resets_prior_handle_first_witness :
    (renderReCaptcha (runBridge initialBridge [BridgeEvent.renderCall false ""])
        false "").libCalls = [LibCall.render, LibCall.reset 0, LibCall.render] ∧
    (renderReCaptcha (runBridge initialBridge [BridgeEvent.renderCall false ""])
        false "").widgetId = some 1 := by
  have h := render_resets_prior_handle_first
    (runBridge initialBridge [BridgeEvent.renderCall false ""]) 0
    (by decide) (by decide) (by decide) (by decide)
  constructor
  · rw [h.1]; decide
  · rw [h.2.1]; decide

lemma stepBridge_avoids (p1 : Nat) (s : BridgeState) (e : BridgeEvent)
    (h1 : p1 < s.nextPromiseId) (h2 : ∀ q, s.pending = some q → p1 < q) :
    p1 < (stepBridge s e).nextPromiseId ∧
    (∀ q, (stepBridge s e).pending = some q → p1 < q) ∧
    settleCount p1 (stepBridge s e).settled = settleCount p1 s.settled := by
  cases e with
  | verify token =>
      rcases hp : s.pending with _ | q
      · simp [stepBridge, verifyCallback, clearExecuteTimeout, hp, h1]
      · have hq : p1 < q := h2 q hp
        simp [stepBridge, verifyCallback, clearExecuteTimeout, hp, h1,
          settleCount_append, Settle.promiseId, Nat.ne_of_gt hq]
  | expired =>
      rcases hp : s.pending with _ | q
      · simp [stepBridge, expiredCallback, clearExecuteTimeout, hp, h1]
      · have hq : p1 < q := h2 q hp
        simp [stepBridge, expiredCallback, clearExecuteTimeout, hp, h1,
          settleCount_append, Settle.promiseId, Nat.ne_of_gt hq]
  | errorEvt msg =>
      rcases hp : s.pending with _ | q
      · simp [stepBridge, errorCallback, clearExecuteTimeout, hp, h1]
      · have hq : p1 < q := h2 q hp
        simp [stepBridge, errorCallback, clearExecuteTimeout, hp, h1,
          settleCount_append, Settle.promiseId, Nat.ne_of_gt hq]
  | timeoutFire =>
      by_cases ht : s.executeTimeout
      · rcases hp : s.pending with _ | q
        · simp [stepBridge, executeTimeoutFires, clearExecuteTimeout, hp, ht, h1]
        · have hq : p1 < q := h2 q hp
          simp [stepBridge, executeTimeoutFires, clearExecuteTimeout, hp, ht,
            h1, settleCount_append, Settle.promiseId, Nat.ne_of_gt hq]
      · have hid : stepBridge s BridgeEvent.timeoutFire = s := by
          simp [stepBridge, executeTimeoutFires, ht]
        rw [hid]
        exact ⟨h1, h2, rfl⟩
  | dispose =>
      rcases hp : s.pending with _ | q
      · rcases hw : s.widgetId with _ | w <;>
          by_cases hg : s.grecaptcha <;>
            simp [stepBridge, disposeBridge, clearExecuteTimeout, hp, hw, hg, h1]
      · have hq : p1 < q := h2 q hp
        rcases hw : s.widgetId with _ | w <;>
          by_cases hg : s.grecaptcha <;>
            simp [stepBridge, disposeBridge, clearExecuteTimeout, hp, hw, hg,
              h1, settleCount_append, Settle.promiseId, Nat.ne_of_gt hq]
  | executeAsyncCall t m =>
      rcases hw : s.widgetId with _ | w
      · simp [stepBridge, executeAsync, clearExecuteTimeout, hw,
          settleCount_append, Settle.promiseId]
        refine ⟨by omega, fun q hq => h2 q hq, by omega⟩
      · by_cases hg : s.grecaptcha
        · cases t
          · simp [stepBridge, executeAsync, clearExecuteTimeout, hw, hg]
            omega
          · simp [stepBridge, executeAsync, clearExecuteTimeout, hw, hg,
              settleCount_append, Settle.promiseId]
            refine ⟨by omega, by omega⟩
        · simp [stepBridge, executeAsync, clearExecuteTimeout, hw, hg,
            settleCount_append, Settle.promiseId]
          refine ⟨by omega, fun q hq => h2 q hq, by omega⟩
  | renderCall t m =>
      by_cases hgc : !s.grecaptcha || !s.containerPresent
      · have hid : stepBridge s (BridgeEvent.renderCall t m) = s := by
          simp [stepBridge, renderReCaptcha, hgc]
        rw [hid]
        exact ⟨h1, h2, rfl⟩
      · rcases hw : s.widgetId with _ | w <;> cases t <;>
          · refine ⟨?_, fun q hq => h2 q ?_, ?_⟩
            · simp [stepBridge, renderReCaptcha, hgc, hw, h1]
            · simpa [stepBridge, renderReCaptcha, hgc, hw] using hq
            · simp [stepBridge, renderReCaptcha, hgc, hw]

lemma runBridge_avoids (p1 : Nat) (es : List BridgeEvent) :
    ∀ s : BridgeState, p1 < s.nextPromiseId →
      (∀ q, s.pending = some q → p1 < q) →
      settleCount p1 (runBridge s es).settled = settleCount p1 s.settled := by
  induction es with
  | nil => intro s _ _; rfl
  | cons e es ih =>
      intro s h1 h2
      have h := stepBridge_avoids p1 s e h1 h2
      rw [runBridge, ih (stepBridge s e) h.1 h.2.1, h.2.2]

/-- C9. Calling `executeAsync` while a previous call's pending
execution `p1` is still unsettled silently replaces the slot and its
timeout timer with the new call's: afterwards the slot holds the new
promise (and the timer is re-armed), the new promise is distinct from
`p1`, and no subsequent sequence of events whatsoever — verify, expire,
error, timeout, disposal, or further `executeAsync`/render calls — ever
settles `p1`: the first caller's promise hangs forever. -/
theorem overlapping_executeAsync_orphans_first_promise (s : BridgeState)
    (w p1 : Nat) (m : String) (hg : s.grecaptcha = true)
    (hw : s.widgetId = some w) (hpend : s.pending = some p1)
    (hfresh : p1 < s.nextPromiseId) (hcount : settleCount p1 s.settled = 0) :
    (executeAsync s false m).2 ≠ p1 ∧
    (executeAsync s false m).1.pending = some (executeAsync s false m).2 ∧
    (executeAsync s false m).1.executeTimeout = true ∧
    (∀ es : List BridgeEvent,
      settleCount p1 (runBridge (executeAsync s false m).1 es).settled = 0) := by
  have hfields :
      (executeAsync s false m).2 = s.nextPromiseId ∧
      (executeAsync s false m).1.pending = some s.nextPromiseId ∧
      (executeAsync s false m).1.executeTimeout = true ∧
      (executeAsync s false m).1.nextPromiseId = s.nextPromiseId + 1 ∧
      (executeAsync s false m).1.settled = s.settled := by
    simp [executeAsync, clearExecuteTimeout, hg, hw]
  refine ⟨by omega, by rw [hfields.2.1, hfields.1], hfields.2.2.1, ?_⟩
  intro es
  have h := runBridge_avoids p1 es (executeAsync s false m).1
    (by rw [hfields.2.2.2.1]; omega)
    (by intro q hq; rw [hfields.2.1] at hq; injection hq with hq; omega)
  rw [h, hfields.2.2.2.2, hcount]

theorem overlapping_executeAsync_orphans_first_promise_witness :
    (executeAsync (runBridge initialBridge
        [BridgeEvent.renderCall false "", BridgeEvent.executeAsyncCall false ""])
        false "").2 ≠ 0 ∧
    settleCount 0 (runBridge
        (executeAsync (runBridge initialBridge
          [BridgeEvent.renderCall false "", BridgeEvent.executeAsyncCall false ""])
          false "").1
        [BridgeEvent.verify "tok", BridgeEvent.timeoutFire,
          BridgeEvent.dispose]).settled = 0 := by
  have h := overlapping_executeAsync_orphans_first_promise
    (runBridge initialBridge
      [BridgeEvent.renderCall false "", BridgeEvent.executeAsyncCall false ""])
    0 0 "" (by decide) (by decide) (by decide) (by decide) (by decide)
  exact ⟨h.1, h.2.2.2 _⟩

end ReCaptcha
